import Mathlib

/- Verification development for the call-center call-analysis pipeline:
   speaker attribution (speech_recognition.py), sentiment estimation
   (emotion_analyzer.py), resolution detection (resolution_detector.py)
   and the scoring engine (scoring_engine.py).  Python strings are
   modelled as lists of characters, floats as rationals, and dictionaries
   with possibly-absent keys as structures with `Option` fields; a Python
   function that can raise `KeyError` is modelled as returning `Option`. -/

/-- A Python string, modelled as its list of characters. -/
abbrev Str := List Char

/-- Shorthand turning a Lean string literal into the `Str` model. -/
def ls (s : String) : Str := s.toList

/-- The whitespace characters recognised by Python's `str.strip`/`str.split`
(restricted to the ones that occur in this code base). -/
def isSpaceChar (c : Char) : Bool :=
  c = ' ' || c = '\t' || c = '\n' || c = '\r'

/-- Python `str.strip`: drop leading and trailing whitespace. -/
def pyStrip (s : Str) : Str :=
  ((s.dropWhile isSpaceChar).reverse.dropWhile isSpaceChar).reverse

/-- Lower-casing of a single character, covering ASCII, Cyrillic
(`А`–`Я`, `Ё`, `Ѐ`–`Џ`) and the Kazakh Cyrillic extensions in
U+0460–U+04FF (uppercase at even code points, lowercase one above). -/
def lowerChar (c : Char) : Char :=
  if 'A' ≤ c && c ≤ 'Z' then Char.ofNat (c.toNat + 32)
  else if 'А' ≤ c && c ≤ 'Я' then Char.ofNat (c.toNat + 32)
  else if 0x0400 ≤ c.toNat && c.toNat ≤ 0x040F then Char.ofNat (c.toNat + 0x50)
  else if 0x0460 ≤ c.toNat && c.toNat ≤ 0x04FF && c.toNat % 2 == 0 then
    Char.ofNat (c.toNat + 1)
  else c

/-- Python `str.lower`. -/
def pyLower (s : Str) : Str := s.map lowerChar

/-- Python's `needle in hay` substring test. -/
def isSub (needle hay : Str) : Bool := decide (needle <:+: hay)

/-- `any(w in hay for w in needles)`. -/
def containsAny (hay : Str) (needles : List Str) : Bool :=
  needles.any (fun n => isSub n hay)

/-- The number of phrases of `phrases` occurring as substrings of `tl`
(each list entry counted once, duplicates in the list counted again),
matching a Python loop `for p in phrases: if p in tl: acc += k`. -/
def countHits (tl : Str) (phrases : List Str) : ℕ :=
  (phrases.filter (fun p => isSub p tl)).length

/-- The words of a string: maximal whitespace-free runs.  Used to state
the word-preservation property of speaker separation. -/
def wordsOf (s : Str) : List Str :=
  (s.splitOnP isSpaceChar).filter (fun w => ¬ w.isEmpty)

/-- `np.mean` on a list of rationals (callers guard against `[]`). -/
def listMean (l : List ℚ) : ℚ := l.sum / l.length

/-- Dictionary lookup with a default: Python `d.get(k, default)` for a
dictionary modelled as an association list in insertion order. -/
def lookupD {α : Type} (m : List (String × α)) (k : String) (d : α) : α :=
  match m with
  | [] => d
  | (key, v) :: rest => if key = k then v else lookupD rest k d

/-- Python `min` on two rationals, written with an explicit comparison so
that it evaluates by kernel reduction. -/
def pyMin (a b : ℚ) : ℚ := if a ≤ b then a else b

/-- Python `max` on two rationals. -/
def pyMax (a b : ℚ) : ℚ := if a ≤ b then b else a

lemma pyMin_eq_min (a b : ℚ) : pyMin a b = min a b := by
  unfold pyMin
  rw [min_def]

lemma pyMax_eq_max (a b : ℚ) : pyMax a b = max a b := by
  unfold pyMax
  rw [max_def]

/-- `max(0, min(100, score))`, the clamp used by every category score. -/
def clampQ (q : ℚ) : ℚ := pyMax 0 (pyMin 100 q)

/-- Round-half-to-even to an integer, the rounding Python's `round`
applies to the scaled value. -/
def rndHalfEven (q : ℚ) : ℤ :=
  if Int.fract q < 1/2 then ⌊q⌋
  else if 1/2 < Int.fract q then ⌊q⌋ + 1
  else if Even ⌊q⌋ then ⌊q⌋ else ⌊q⌋ + 1

/-- Python `round(x, 1)`. -/
def roundTo1 (q : ℚ) : ℚ := (rndHalfEven (10 * q) : ℚ) / 10

lemma rndHalfEven_lb (q : ℚ) : ⌊q⌋ ≤ rndHalfEven q := by
  unfold rndHalfEven
  split
  · exact le_refl _
  · split
    · exact le_of_lt (lt_add_one _)
    · split
      · exact le_refl _
      · exact le_of_lt (lt_add_one _)

lemma rndHalfEven_ub (q : ℚ) : rndHalfEven q ≤ ⌊q⌋ + 1 := by
  unfold rndHalfEven
  split
  · exact le_of_lt (lt_add_one _)
  · split
    · exact le_refl _
    · split
      · exact le_of_lt (lt_add_one _)
      · exact le_refl _

lemma rndHalfEven_mono {x y : ℚ} (h : x ≤ y) : rndHalfEven x ≤ rndHalfEven y := by
  have hf : ⌊x⌋ ≤ ⌊y⌋ := Int.floor_le_floor h
  rcases lt_or_eq_of_le hf with hlt | heq
  · calc rndHalfEven x ≤ ⌊x⌋ + 1 := rndHalfEven_ub x
      _ ≤ ⌊y⌋ := hlt
      _ ≤ rndHalfEven y := rndHalfEven_lb y
  · have hfr : Int.fract x ≤ Int.fract y := by
      unfold Int.fract
      rw [heq]
      exact sub_le_sub_right h _
    unfold rndHalfEven
    rw [heq]
    rcases lt_trichotomy (Int.fract x) (1/2 : ℚ) with h1 | h1 | h1
    · rw [if_pos h1]
      split
      · exact le_refl _
      · split
        · exact le_of_lt (lt_add_one _)
        · split
          · exact le_refl _
          · exact le_of_lt (lt_add_one _)
    · rw [if_neg (by rw [h1]; exact lt_irrefl _),
          if_neg (by rw [h1]; exact lt_irrefl _)]
      rcases lt_or_eq_of_le hfr with h2 | h2
      · rw [h1] at h2
        rw [if_neg (not_lt.mpr (le_of_lt h2)), if_pos h2]
        split
        · exact le_of_lt (lt_add_one _)
        · exact le_refl _
      · rw [← h2, h1]
        rw [if_neg (lt_irrefl _), if_neg (lt_irrefl _)]
    · have h1y : (1/2 : ℚ) < Int.fract y := lt_of_lt_of_le h1 hfr
      rw [if_neg (not_lt.mpr (le_of_lt h1)), if_pos h1,
          if_neg (not_lt.mpr (le_of_lt h1y)), if_pos h1y]

lemma roundTo1_mono {x y : ℚ} (h : x ≤ y) : roundTo1 x ≤ roundTo1 y := by
  unfold roundTo1
  have h10 : (10 : ℚ) * x ≤ 10 * y := by linarith
  have := rndHalfEven_mono h10
  have hz : ((rndHalfEven (10 * x) : ℚ)) ≤ (rndHalfEven (10 * y) : ℚ) := by
    exact_mod_cast this
  linarith

/- ### Word-multiset lemmas for speaker separation -/

lemma modifyHead_append_of_ne_nil {α : Type} (f : α → α) (l m : List α)
    (h : l ≠ []) : (l ++ m).modifyHead f = l.modifyHead f ++ m := by
  cases l with
  | nil => exact absurd rfl h
  | cons a l => simp

lemma splitOnP_append_sep {α : Type} (p : α → Bool) (c : α) (hc : p c = true)
    (a b : List α) :
    (a ++ c :: b).splitOnP p = a.splitOnP p ++ b.splitOnP p := by
  induction a with
  | nil => simp [List.splitOnP_cons, hc, List.splitOnP_nil]
  | cons x xs ih =>
    simp only [List.cons_append, List.splitOnP_cons, ih]
    by_cases hx : p x
    · simp [hx]
    · simp only [hx, if_false, Bool.false_eq_true]
      rw [modifyHead_append_of_ne_nil _ _ _ (List.splitOnP_ne_nil _ _)]

lemma wordsOf_append_sep {c : Char} (hc : isSpaceChar c = true) (a b : Str) :
    wordsOf (a ++ c :: b) = wordsOf a ++ wordsOf b := by
  unfold wordsOf
  rw [splitOnP_append_sep _ c hc, List.filter_append]

lemma wordsOf_nil : wordsOf [] = [] := rfl

lemma wordsOf_cons_space {c : Char} (hc : isSpaceChar c = true) (b : Str) :
    wordsOf (c :: b) = wordsOf b := by
  have := wordsOf_append_sep hc [] b
  simpa using this

lemma wordsOf_append_space {c : Char} (hc : isSpaceChar c = true) (a : Str) :
    wordsOf (a ++ [c]) = wordsOf a := by
  have := wordsOf_append_sep hc a []
  simpa [wordsOf_nil] using this

lemma wordsOf_dropWhile_space (s : Str) :
    wordsOf (s.dropWhile isSpaceChar) = wordsOf s := by
  induction s with
  | nil => rfl
  | cons x xs ih =>
    by_cases hx : isSpaceChar x
    · rw [List.dropWhile_cons_of_pos hx, ih, wordsOf_cons_space hx]
    · rw [List.dropWhile_cons_of_neg hx]

lemma wordsOf_dropTrailing_space (s : Str) :
    wordsOf ((s.reverse.dropWhile isSpaceChar).reverse) = wordsOf s := by
  induction s using List.reverseRecOn with
  | nil => rfl
  | append_singleton ys x ih =>
    by_cases hx : isSpaceChar x
    · rw [List.reverse_append, List.reverse_singleton, List.singleton_append,
        List.dropWhile_cons_of_pos hx, ih, wordsOf_append_space hx]
    · rw [List.reverse_append, List.reverse_singleton, List.singleton_append,
        List.dropWhile_cons_of_neg hx]
      simp

lemma wordsOf_pyStrip (s : Str) : wordsOf (pyStrip s) = wordsOf s := by
  unfold pyStrip
  rw [wordsOf_dropTrailing_space, wordsOf_dropWhile_space]

/- ### emotion_analyzer.py -/

/-- One entry of the list returned by the ML emotion classifier: a Python
dict whose `label`/`score` keys are read with `.get` defaults. -/
structure Emotion where
  label : Option Str
  score : Option ℚ
deriving DecidableEq, Repr

/-- A `{"sentiment": ..., "confidence": ...}` pair. -/
structure SentCon where
  sentiment : String
  confidence : ℚ
deriving DecidableEq, Repr

/-- The dict returned by `analyze_emotions`; `analysis_method` is `none`
when the code path omits that key. -/
structure EmotionsResult where
  emotions : List Emotion
  sentiment : String
  sentiment_confidence : ℚ
  language : String
  analysis_method : Option String
deriving DecidableEq, Repr

def positive_keywords : List (String × List Str) :=
  [("ru", [ls "спасибо", ls "хорошо", ls "отлично", ls "понятно", ls "помогли",
           ls "решено", ls "благодарю", ls "доволен"]),
   ("kk", [ls "рахмет", ls "жақсы", ls "керемет", ls "түсіндім", ls "көмектесті",
           ls "шешілді", ls "ризамын", ls "қуанышты"])]

def negative_keywords : List (String × List Str) :=
  [("ru", [ls "плохо", ls "ужасно", ls "не работает", ls "проблема", ls "злой",
           ls "недоволен", ls "разочарован", ls "бесполезно"]),
   ("kk", [ls "жаман", ls "қорқынышты", ls "жұмыс істемейді", ls "мәселе", ls "ашулы",
           ls "ризасыз", ls "көңілі толмаған", ls "пайдасыз"])]

/-- `EmotionAnalyzer._analyze_sentiment_keywords`. -/
def analyze_sentiment_keywords (text : Str) (language : String) : SentCon :=
  let text_lower := pyLower text
  let lang_keywords := lookupD positive_keywords language
    (lookupD positive_keywords "ru" [])
  let lang_negative := lookupD negative_keywords language
    (lookupD negative_keywords "ru" [])
  let positive_count := countHits text_lower lang_keywords
  let negative_count := countHits text_lower lang_negative
  if positive_count > negative_count then
    ⟨"positive", min 0.9 (0.5 + (positive_count : ℚ) * 0.1)⟩
  else if negative_count > positive_count then
    ⟨"negative", min 0.9 (0.5 + (negative_count : ℚ) * 0.1)⟩
  else
    ⟨"neutral", 0.5⟩

/-- Python's `max(emotions, key=lambda x: x.get("score", 0))`: the first
element of maximal score, found by a left fold keeping the current
maximum unless a strictly larger one appears. -/
def maxByScore (e : Emotion) (rest : List Emotion) : Emotion :=
  rest.foldl (fun b x => if x.score.getD 0 > b.score.getD 0 then x else b) e

/-- `EmotionAnalyzer._extract_sentiment_from_emotions`. -/
def extract_sentiment_from_emotions (emotions : List Emotion) : SentCon :=
  match emotions with
  | [] => ⟨"neutral", 0.5⟩
  | e :: rest =>
    let top := maxByScore e rest
    let emotion_label := pyLower (top.label.getD [])
    let confidence := top.score.getD 0.5
    if containsAny emotion_label [ls "positive", ls "joy", ls "happy", ls "satisfied"] then
      ⟨"positive", confidence⟩
    else if containsAny emotion_label
        [ls "negative", ls "anger", ls "sad", ls "frustrated", ls "disappointed"] then
      ⟨"negative", confidence⟩
    else
      ⟨"neutral", confidence⟩

/-- `EmotionAnalyzer._combine_sentiment_analysis`. -/
def combine_sentiment_analysis (keyword_result ml_result : SentCon) : SentCon :=
  let keyword_weight : ℚ := 0.7
  let ml_weight : ℚ := 0.3
  if keyword_result.sentiment = ml_result.sentiment then
    ⟨keyword_result.sentiment,
     keyword_result.confidence * keyword_weight + ml_result.confidence * ml_weight⟩
  else
    keyword_result

/-- The optional ML classifier of `EmotionAnalyzer`: `none` when the model
is not loaded; an invocation may raise (`Except.error`). -/
abbrev Classifier := Option (Str → Except Unit (List Emotion))

/-- The keyword-only fallback return value of `analyze_emotions`. -/
def keywordFallback (keyword_sentiment : SentCon) (language : String) : EmotionsResult :=
  { emotions := [⟨some (ls keyword_sentiment.sentiment), some keyword_sentiment.confidence⟩]
    sentiment := keyword_sentiment.sentiment
    sentiment_confidence := keyword_sentiment.confidence
    language := language
    analysis_method := some "keyword_based" }

/-- `EmotionAnalyzer.analyze_emotions` (model loading is abstracted into
the `classifier` argument; the print statements have no effect). -/
def analyze_emotions (text : Str) (language : String) (classifier : Classifier) :
    EmotionsResult :=
  if pyStrip text = [] then
    { emotions := [⟨some (ls "neutral"), some 0.5⟩]
      sentiment := "neutral"
      sentiment_confidence := 0.5
      language := language
      analysis_method := none }
  else
    let keyword_sentiment := analyze_sentiment_keywords text language
    match classifier with
    | some f =>
      match f text with
      | Except.ok emotions =>
        let ml_sentiment := extract_sentiment_from_emotions emotions
        let final_sentiment := combine_sentiment_analysis keyword_sentiment ml_sentiment
        { emotions := emotions
          sentiment := final_sentiment.sentiment
          sentiment_confidence := final_sentiment.confidence
          language := language
          analysis_method := some "ml_keyword_combined" }
      | Except.error _ => keywordFallback keyword_sentiment language
    | none => keywordFallback keyword_sentiment language

/- ### resolution_detector.py -/

def resolution_keywords : List (String × List (String × List Str)) :=
  [("ru",
    [("resolved", [ls "решено", ls "решил", ls "помог", ls "исправлено", ls "готово",
                   ls "все в порядке", ls "проблема решена"]),
     ("unresolved", [ls "не решено", ls "не помогло", ls "проблема осталась",
                     ls "не работает", ls "не получилось"]),
     ("partial", [ls "частично", ls "попробую", ls "посмотрим", ls "возможно",
                  ls "попробуем"])]),
   ("kk",
    [("resolved", [ls "шешілді", ls "шештім", ls "көмектестім", ls "түзетілді",
                   ls "дайын", ls "барлығы дұрыс", ls "мәселе шешілді"]),
     ("unresolved", [ls "шешілмеді", ls "көмектеспеді", ls "мәселе қалды",
                     ls "жұмыс істемейді", ls "болмады"]),
     ("partial", [ls "жартылай", ls "көрейін", ls "қараймыз", ls "мүмкін",
                  ls "көрейік"])])]

/-- The `for status, keywords in lang_keywords.items(): ... return status`
loop of `_check_keywords`: first category with any matching keyword. -/
def firstMatch (text_lower : Str) : List (String × List Str) → String
  | [] => "unclear"
  | (status, keywords) :: rest =>
    if keywords.any (fun k => isSub k text_lower) then status
    else firstMatch text_lower rest

/-- `ResolutionDetector._check_keywords`. -/
def check_keywords (text : Str) (language : String) : String :=
  let text_lower := pyLower text
  let lang_keywords := lookupD resolution_keywords language
    (lookupD resolution_keywords "ru" [])
  firstMatch text_lower lang_keywords

/-- `ResolutionDetector._analyze_final_sentiment` (returns a constant). -/
def analyze_final_sentiment (sentences : List Str) : String :=
  "neutral"

def base_scores : List (String × ℚ) :=
  [("resolved", 90), ("partial", 60), ("unresolved", 20), ("unclear", 50)]

def sentiment_modifiers : List (String × ℚ) :=
  [("positive", 10), ("neutral", 0), ("negative", -10)]

/-- `ResolutionDetector._calculate_resolution_score`. -/
def calculate_resolution_score (status sentiment : String) : ℚ :=
  let score := lookupD base_scores status 50 + lookupD sentiment_modifiers sentiment 0
  clampQ score

/-- The dict returned by `detect_issue_resolution`. -/
structure ResolutionResult where
  resolved : Bool
  resolution_score : ℚ
  status : String
  final_sentiment : String
  language : String
deriving DecidableEq, Repr

/-- `ResolutionDetector.detect_issue_resolution`. -/
def detect_issue_resolution (conversation customer_text : Str) (language : String) :
    ResolutionResult :=
  let resolution_status := check_keywords customer_text language
  let customer_sentences := customer_text.splitOnP (fun c => c = '.')
  let final_sentiment := analyze_final_sentiment
    (customer_sentences.drop (customer_sentences.length - 3))
  let resolution_score := calculate_resolution_score resolution_status final_sentiment
  { resolved := resolution_score > 70
    resolution_score := resolution_score
    status := resolution_status
    final_sentiment := final_sentiment
    language := language }

/- ### speech_recognition.py -/

/-- The `speaker` value of a Whisper segment dict: a string label or a
numeric channel index. -/
inductive SpeakerHint where
  | str (s : Str)
  | num (n : ℤ)
deriving DecidableEq, Repr

/-- A transcription segment as consumed by `separate_speakers`. -/
structure Segment where
  text : Str
  speaker : Option SpeakerHint
deriving DecidableEq, Repr

/-- `SpeechRecognizer._identify_speaker`. -/
def identify_speaker (segment : Segment) : String :=
  let fromHint : Option String :=
    match segment.speaker with
    | some (SpeakerHint.str s) =>
      let sl := pyLower s
      if isSub (ls "agent") sl || isSub (ls "operator") sl || isSub (ls "worker") sl then
        some "worker"
      else if isSub (ls "client") sl || isSub (ls "customer") sl || isSub (ls "caller") sl then
        some "customer"
      else none
    | some (SpeakerHint.num n) => some (if n = 0 then "customer" else "worker")
    | none => none
  match fromHint with
  | some r => r
  | none =>
    let text := pyLower segment.text
    if containsAny text [ls "agent:", ls "operator:", ls "worker:"] then "worker"
    else if containsAny text [ls "customer:", ls "client:", ls "caller:"] then "customer"
    else "unknown"

def worker_phrases : List Str :=
  [ls "здравствуйте", ls "добрый день", ls "как дела", ls "чем могу помочь",
   ls "понимаю", ls "ясно", ls "конечно", ls "помогу", ls "решим",
   ls "сәлеметсіз бе", ls "қайырлы күн", ls "қалай көмектесе аламын",
   ls "түсіндім", ls "анық", ls "әрине", ls "көмектесемін", ls "шешеміз"]

def customer_phrases : List Str :=
  [ls "у меня проблема", ls "не работает", ls "помогите", ls "что делать",
   ls "менің мәселем бар", ls "жұмыс істемейді", ls "көмектесіңіз",
   ls "не істеу керек"]

/-- `SpeechRecognizer._is_likely_worker_text`. -/
def likely_worker_text (text : Str) : Bool :=
  let text_lower := pyLower text
  countHits text_lower worker_phrases > countHits text_lower customer_phrases

/-- The accumulation loop of `separate_speakers`, threading the two
growing text accumulators. -/
def sepLoop : List Segment → Str → Str → Str × Str
  | [], worker_text, customer_text => (worker_text, customer_text)
  | segment :: rest, worker_text, customer_text =>
    let text := pyStrip segment.text
    if text = [] then sepLoop rest worker_text customer_text
    else if identify_speaker segment = "worker" then
      sepLoop rest (worker_text ++ text ++ [' ']) customer_text
    else if identify_speaker segment = "customer" then
      sepLoop rest worker_text (customer_text ++ text ++ [' '])
    else if likely_worker_text text then
      sepLoop rest (worker_text ++ text ++ [' ']) customer_text
    else
      sepLoop rest worker_text (customer_text ++ text ++ [' '])

/-- `SpeechRecognizer.separate_speakers`. -/
def separate_speakers (segments : List Segment) : Str × Str :=
  if segments = [] then ([], [])
  else
    let wc := sepLoop segments [] []
    (pyStrip wc.1, pyStrip wc.2)

/- ### scoring_engine.py -/

/-- `call_analysis["emotions"]`: a dict whose `sentiment` and
`sentiment_confidence` keys are read with `.get` defaults. -/
structure Emotions where
  sentiment : Option String
  sentiment_confidence : Option ℚ
deriving DecidableEq, Repr

/-- The inner `["emotions"]` dict of a progression entry (its
`["sentiment"]` key is subscripted directly, hence required). -/
structure ProgEmotions where
  sentiment : String
deriving DecidableEq, Repr

/-- One entry of `call_analysis["emotion_progression"]`. -/
structure ProgEntry where
  emotions : ProgEmotions
deriving DecidableEq, Repr

/-- `call_analysis["resolution"]`: `resolution_score` is subscripted
directly, `resolved` is read with `.get`. -/
structure ResolutionDict where
  resolution_score : ℚ
  resolved : Option Bool
deriving DecidableEq, Repr

/-- `call_analysis.get("transcription", {})`. -/
structure Transcription where
  duration : Option ℚ
deriving DecidableEq, Repr

/-- The `call_analysis` dict passed to `calculate_total_score`; every
field is optional because the corresponding key may be absent. -/
structure CallAnalysis where
  emotions : Option Emotions
  emotion_progression : Option (List ProgEntry)
  resolution : Option ResolutionDict
  worker_text : Option Str
  customer_text : Option Str
  response_times : Option (List ℚ)
  interruptions : Option ℕ
  greeting : Option Bool
  closing : Option Bool
  language : Option String
  transcription : Option Transcription
deriving DecidableEq, Repr

def weights_emotion : ℚ := 0.25
def weights_resolution : ℚ := 0.25
def weights_communication : ℚ := 0.20
def weights_professionalism : ℚ := 0.15
def weights_empathy : ℚ := 0.10
def weights_efficiency : ℚ := 0.05

/-- The weighted sum of the six category scores (lines 54–61 of
`scoring_engine.py`). -/
def weightedTotal (emotion resolution communication professionalism
    empathy efficiency : ℚ) : ℚ :=
  emotion * weights_emotion +
  resolution * weights_resolution +
  communication * weights_communication +
  professionalism * weights_professionalism +
  empathy * weights_empathy +
  efficiency * weights_efficiency

/-- `ScoringEngine._calculate_emotion_score`. -/
def calculate_emotion_score (emotions : Emotions) (progression : List ProgEntry) : ℚ :=
  let current_sentiment := emotions.sentiment.getD "neutral"
  let sentiment_confidence := emotions.sentiment_confidence.getD 0.5
  let score : ℚ :=
    if current_sentiment = "positive" then 50 + 30 * sentiment_confidence
    else if current_sentiment = "negative" then 50 - 25 * sentiment_confidence
    else 50 + 5 * sentiment_confidence
  let score :=
    match progression with
    | [] => score
    | p0 :: rest =>
      if rest = [] then score
      else
        let start_emotion := p0.emotions.sentiment
        let end_emotion := ((p0 :: rest).getLast (List.cons_ne_nil p0 rest)).emotions.sentiment
        if start_emotion = "negative" ∧ end_emotion = "positive" then score + 25
        else if start_emotion = "negative" ∧ end_emotion = "neutral" then score + 15
        else if start_emotion = "neutral" ∧ end_emotion = "positive" then score + 10
        else if start_emotion = "positive" ∧ end_emotion = "negative" then score - 20
        else if start_emotion = "neutral" ∧ end_emotion = "negative" then score - 15
        else score
  clampQ score

def clarity_phrases : List (String × List Str) :=
  [("ru", [ls "понимаю", ls "ясно", ls "конечно", ls "помогу", ls "разберёмся",
           ls "объясню", ls "покажу"]),
   ("kk", [ls "түсіндім", ls "анық", ls "әрине", ls "көмектесемін", ls "шешеміз",
           ls "түсіндіремін", ls "көрсетемін"])]

def unclear_phrases : List (String × List Str) :=
  [("ru", [ls "не знаю", ls "не понимаю", ls "не могу", ls "не получается",
           ls "сложно"]),
   ("kk", [ls "білмеймін", ls "түсінбеймін", ls "аламын", ls "болмады", ls "қиын"])]

/-- The double loop `for lang, phrases in table.items(): for phrase in
phrases: if phrase in text: acc += inc`, expressed per language entry. -/
def tableHits (text_lower : Str) (table : List (String × List Str)) : ℕ :=
  (table.map (fun lp => countHits text_lower lp.2)).sum

/-- The response-time adjustment of `_calculate_communication_score`. -/
def commRtAdj (response_times : List ℚ) : ℚ :=
  if response_times ≠ [] then
    let avg_response_time := listMean response_times
    if avg_response_time > 10 then -20
    else if avg_response_time > 5 then -10
    else if avg_response_time < 2 then 10
    else 0
  else -5

/-- `ScoringEngine._calculate_communication_score` (the clarity and
unclear tables are scanned over every language entry, not routed). -/
def calculate_communication_score (text : Str) (response_times : List ℚ)
    (interruptions : ℕ) : ℚ :=
  let score : ℚ := 70 - (interruptions : ℚ) * 8 + commRtAdj response_times
  let text_lower := pyLower text
  let clarity_bonus : ℚ := 3 * (tableHits text_lower clarity_phrases : ℚ)
  let score := score + pyMin 15 clarity_bonus
  let unclear_penalty : ℚ := 5 * (tableHits text_lower unclear_phrases : ℚ)
  let score := score - pyMin 20 unclear_penalty
  clampQ score

def professional_indicators : List (String × List Str) :=
  [("ru", [ls "здравствуйте", ls "спасибо", ls "пожалуйста", ls "извините",
           ls "благодарю", ls "разрешите", ls "позвольте"]),
   ("kk", [ls "сәлеметсіз бе", ls "рахмет", ls "өтінемін", ls "кешіріңіз",
           ls "ризамын", ls "рұқсат етіңіз", ls "жалдаңыз"])]

def unprofessional_indicators : List (String × List Str) :=
  [("ru", [ls "блин", ls "черт", ls "дурак", ls "идиот", ls "тупой", ls "глупый",
           ls "бред"]),
   ("kk", [ls "құдай", ls "шайтан", ls "ақымақ", ls "идиот", ls "ақымақ",
           ls "ақылсыз", ls "мағынасыз"])]

def polite_phrases : List (String × List Str) :=
  [("ru", [ls "будьте добры", ls "не могли бы", ls "если можно", ls "прошу вас"]),
   ("kk", [ls "жақсы болыңыз", ls "ала алмайсыз ба", ls "мүмкін болса",
           ls "өтінемін"])]

/-- `ScoringEngine._calculate_professionalism_score`. -/
def calculate_professionalism_score (text : Str) (greeting closing : Bool) : ℚ :=
  let score : ℚ := 50 + (if greeting then 20 else 0) + (if closing then 20 else 0)
  let text_lower := pyLower text
  let professional_bonus : ℚ := 3 * (tableHits text_lower professional_indicators : ℚ)
  let score := score + pyMin 20 professional_bonus
  let unprofessional_penalty : ℚ := 15 * (tableHits text_lower unprofessional_indicators : ℚ)
  let score := score - pyMin 40 unprofessional_penalty
  let score := score + 5 * (tableHits text_lower polite_phrases : ℚ)
  clampQ score

def empathy_phrases : List (String × List Str) :=
  [("ru", [ls "понимаю ваши чувства", ls "сочувствую", ls "понимаю вашу ситуацию",
           ls "представляю как это сложно", ls "понимаю ваше беспокойство",
           ls "извините за неудобства", ls "понимаю вашу проблему"]),
   ("kk", [ls "сезімдеріңізді түсінемін", ls "ынталаймын", ls "жағдайыңызды түсінемін",
           ls "қаншалықты қиын екенін елестетемін", ls "мазасыздығыңызды түсінемін",
           ls "ыңғайсыздық үшін кешіріңіз", ls "мәселеңізді түсінемін"])]

/-- `ScoringEngine._calculate_empathy_score` (this one routes the phrase
table by language, with Russian as the fallback). -/
def calculate_empathy_score (worker_text : Str) (emotions : Emotions)
    (language : String) : ℚ :=
  let text_lower := pyLower worker_text
  let lang_phrases := lookupD empathy_phrases language (lookupD empathy_phrases "ru" [])
  let empathy_bonus : ℚ := 8 * (countHits text_lower lang_phrases : ℚ)
  let score : ℚ := 60 + pyMin 25 empathy_bonus
  let customer_sentiment := emotions.sentiment.getD "neutral"
  let score := if customer_sentiment = "negative" then score + 10 else score
  clampQ score

/-- The response-time adjustment of `_calculate_efficiency_score`. -/
def effRtAdj (response_times : List ℚ) : ℚ :=
  if response_times ≠ [] then
    let avg_response_time := listMean response_times
    if avg_response_time < 2 then 15
    else if avg_response_time < 4 then 10
    else if avg_response_time > 8 then -15
    else if avg_response_time > 5 then -10
    else 0
  else 0

/-- The call-duration adjustment of `_calculate_efficiency_score`. -/
def durationAdj (call_duration : ℚ) : ℚ :=
  if 180 ≤ call_duration ∧ call_duration ≤ 480 then 10
  else if call_duration > 600 then -10
  else if call_duration < 60 then -5
  else 0

/-- `ScoringEngine._calculate_efficiency_score`. -/
def calculate_efficiency_score (response_times : List ℚ) (interruptions : ℕ)
    (transcription : Transcription) : ℚ :=
  let score : ℚ := 70 + effRtAdj response_times - (interruptions : ℚ) * 5
  let call_duration := transcription.duration.getD 0
  let score := score + durationAdj call_duration
  clampQ score

/-- `ScoringEngine._get_performance_grade`. -/
def get_performance_grade (total_score : ℚ) : String :=
  if total_score ≥ 90 then "Excellent"
  else if total_score ≥ 80 then "Good"
  else if total_score ≥ 70 then "Satisfactory"
  else if total_score ≥ 60 then "Needs Improvement"
  else "Poor"

/-- `ScoringEngine._identify_strengths`, applied to the six local
(unrounded) category scores. -/
def identify_strengths (emotion_score resolution_score communication_score
    professionalism_score empathy_score efficiency_score : ℚ) : List String :=
  (if emotion_score > 85 then ["Excellent customer emotional management"]
   else if emotion_score > 75 then ["Good emotional awareness"] else []) ++
  (if resolution_score > 85 then ["Outstanding problem-solving skills"]
   else if resolution_score > 75 then ["Effective issue resolution"] else []) ++
  (if communication_score > 85 then ["Exceptional communication clarity"]
   else if communication_score > 75 then ["Clear and helpful communication"] else []) ++
  (if professionalism_score > 85 then ["Exemplary professional conduct"]
   else if professionalism_score > 75 then ["Professional and courteous service"] else []) ++
  (if empathy_score > 85 then ["High level of empathy and understanding"]
   else if empathy_score > 75 then ["Good customer empathy"] else []) ++
  (if efficiency_score > 85 then ["Excellent call efficiency"]
   else if efficiency_score > 75 then ["Good time management"] else [])

/-- `ScoringEngine._identify_improvements`. -/
def identify_improvements (emotion_score resolution_score communication_score
    professionalism_score empathy_score efficiency_score : ℚ) : List String :=
  (if emotion_score < 60 then ["Improve emotional connection with customers"]
   else if emotion_score < 70 then ["Enhance customer emotional support"] else []) ++
  (if resolution_score < 60 then ["Strengthen problem resolution techniques"]
   else if resolution_score < 70 then ["Improve issue resolution effectiveness"] else []) ++
  (if communication_score < 60 then ["Enhance communication clarity and helpfulness"]
   else if communication_score < 70 then ["Improve communication effectiveness"] else []) ++
  (if professionalism_score < 60 then ["Maintain higher professional standards"]
   else if professionalism_score < 70 then ["Enhance professional conduct"] else []) ++
  (if empathy_score < 60 then ["Develop better empathy and understanding"]
   else if empathy_score < 70 then ["Show more empathy toward customers"] else []) ++
  (if efficiency_score < 60 then ["Improve call efficiency and time management"]
   else if efficiency_score < 70 then ["Enhance call handling efficiency"] else [])

/-- `ScoringEngine._get_detailed_analysis` (every access there uses
`.get` with a default, so it is total). -/
structure DetailedAnalysis where
  call_duration : ℚ
  language_detected : String
  greeting_provided : Bool
  proper_closing : Bool
  interruption_count : ℕ
  average_response_time : ℚ
  customer_sentiment : String
  issue_resolved : Bool
  worker_text_length : ℕ
  customer_text_length : ℕ
deriving DecidableEq, Repr

def get_detailed_analysis (call_analysis : CallAnalysis) : DetailedAnalysis :=
  { call_duration := ((call_analysis.transcription.getD ⟨none⟩).duration).getD 0
    language_detected := call_analysis.language.getD "unknown"
    greeting_provided := call_analysis.greeting.getD false
    proper_closing := call_analysis.closing.getD false
    interruption_count := call_analysis.interruptions.getD 0
    average_response_time :=
      if call_analysis.response_times.getD [] ≠ [] then
        listMean (call_analysis.response_times.getD [0])
      else 0
    customer_sentiment := ((call_analysis.emotions.getD ⟨none, none⟩).sentiment).getD "neutral"
    issue_resolved := ((call_analysis.resolution.map ResolutionDict.resolved).join).getD false
    worker_text_length := (call_analysis.worker_text.getD []).length
    customer_text_length := (call_analysis.customer_text.getD []).length }

/-- The dict returned by `calculate_total_score`. -/
structure ScoreResult where
  total_score : ℚ
  performance_grade : String
  emotion_score : ℚ
  resolution_score : ℚ
  communication_score : ℚ
  professionalism_score : ℚ
  empathy_score : ℚ
  efficiency_score : ℚ
  strengths : List String
  improvements : List String
  detailed_analysis : DetailedAnalysis
deriving DecidableEq, Repr

/-- `ScoringEngine.calculate_total_score`.  Each `call_analysis["key"]`
subscript can raise `KeyError`; the result is therefore `Option`-valued,
`none` standing for the raised exception. -/
def calculate_total_score (call_analysis : CallAnalysis) : Option ScoreResult := do
  let emotions ← call_analysis.emotions
  let emotion_progression ← call_analysis.emotion_progression
  let resolution ← call_analysis.resolution
  let worker_text ← call_analysis.worker_text
  let response_times ← call_analysis.response_times
  let interruptions ← call_analysis.interruptions
  let greeting ← call_analysis.greeting
  let closing ← call_analysis.closing
  let emotion_score := calculate_emotion_score emotions emotion_progression
  let resolution_score := resolution.resolution_score
  let communication_score :=
    calculate_communication_score worker_text response_times interruptions
  let professionalism_score :=
    calculate_professionalism_score worker_text greeting closing
  let empathy_score :=
    calculate_empathy_score worker_text emotions (call_analysis.language.getD "ru")
  let efficiency_score :=
    calculate_efficiency_score response_times interruptions
      (call_analysis.transcription.getD ⟨none⟩)
  let total_score := weightedTotal emotion_score resolution_score communication_score
    professionalism_score empathy_score efficiency_score
  pure
    { total_score := roundTo1 total_score
      performance_grade := get_performance_grade total_score
      emotion_score := roundTo1 emotion_score
      resolution_score := roundTo1 resolution_score
      communication_score := roundTo1 communication_score
      professionalism_score := roundTo1 professionalism_score
      empathy_score := roundTo1 empathy_score
      efficiency_score := roundTo1 efficiency_score
      strengths := identify_strengths emotion_score resolution_score
        communication_score professionalism_score empathy_score efficiency_score
      improvements := identify_improvements emotion_score resolution_score
        communication_score professionalism_score empathy_score efficiency_score
      detailed_analysis := get_detailed_analysis call_analysis }

/- ### Theorems -/

/-- C2 (counterexample): analyzing the empty text returns a dict with no
`analysis_method` key at all, so the result does not carry the method
tag `keyword` that the claim asserts. -/
theorem analyze_emotions_empty_method_absent :
    (analyze_emotions [] "ru" none).analysis_method = none ∧
    (analyze_emotions [] "ru" none).analysis_method ≠ some "keyword_based" ∧
    (analyze_emotions [] "ru" none).analysis_method ≠ some "keyword" := by
  refine ⟨rfl, ?_, ?_⟩ <;> simp [analyze_emotions, pyStrip]

/-- C2 (amended): for every language and every optional classifier,
analyzing an empty or whitespace-only text returns sentiment `neutral`
with confidence 0.5 and no `analysis_method` tag, without consulting the
classifier (the result is the same for every classifier value). -/
theorem analyze_emotions_empty_neutral (text : Str) (language : String)
    (classifier : Classifier) (h : pyStrip text = []) :
    analyze_emotions text language classifier =
      { emotions := [⟨some (ls "neutral"), some 0.5⟩]
        sentiment := "neutral"
        sentiment_confidence := 0.5
        language := language
        analysis_method := none } := by
  unfold analyze_emotions
  rw [if_pos h]

/-- C2 (witness): the amended theorem applied to the one-space text in
Kazakh with no classifier loaded. -/
theorem analyze_emotions_empty_neutral_witness :
    pyStrip (ls " ") = [] ∧
    analyze_emotions (ls " ") "kk" none =
      { emotions := [⟨some (ls "neutral"), some 0.5⟩]
        sentiment := "neutral"
        sentiment_confidence := 0.5
        language := "kk"
        analysis_method := none } :=
  ⟨by decide, analyze_emotions_empty_neutral (ls " ") "kk" none (by decide)⟩

/-- C4: if the keyword and model results agree on the label, the fused
result keeps that label with confidence 0.7·keyword + 0.3·model; if they
disagree, the fused result is exactly the keyword result. -/
theorem combine_sentiment_fusion (keyword_result ml_result : SentCon) :
    (keyword_result.sentiment = ml_result.sentiment →
      combine_sentiment_analysis keyword_result ml_result =
        ⟨keyword_result.sentiment,
         0.7 * keyword_result.confidence + 0.3 * ml_result.confidence⟩) ∧
    (keyword_result.sentiment ≠ ml_result.sentiment →
      combine_sentiment_analysis keyword_result ml_result = keyword_result) := by
  constructor
  · intro h
    unfold combine_sentiment_analysis
    rw [if_pos h]
    congr 1
    ring
  · intro h
    unfold combine_sentiment_analysis
    rw [if_neg h]

/-- C4 (witness): the fusion rule evaluated on one agreeing and one
disagreeing pair. -/
theorem combine_sentiment_fusion_witness :
    combine_sentiment_analysis ⟨"positive", 0.6⟩ ⟨"positive", 0.8⟩ =
      ⟨"positive", 0.66⟩ ∧
    combine_sentiment_analysis ⟨"positive", 0.6⟩ ⟨"negative", 0.8⟩ =
      ⟨"positive", 0.6⟩ := by
  constructor
  · have h := (combine_sentiment_fusion ⟨"positive", 0.6⟩ ⟨"positive", 0.8⟩).1 rfl
    rw [h]
    congr 1
    norm_num
  · exact (combine_sentiment_fusion ⟨"positive", 0.6⟩ ⟨"negative", 0.8⟩).2 (by decide)

lemma firstMatch_eq_find (text_lower : Str) (l : List (String × List Str)) :
    firstMatch text_lower l =
      (((l.find? (fun sk => sk.2.any (fun k => isSub k text_lower))).map
        Prod.fst).getD "unclear") := by
  induction l with
  | nil => rfl
  | cons sk rest ih =>
    cases sk with
    | mk status keywords =>
      unfold firstMatch
      by_cases h : keywords.any (fun k => isSub k text_lower)
      · simp [List.find?, h]
      · simp [List.find?, h, ih]

/-- C9: keyword classification of the resolution status returns the first
category, in the lexicon's iteration order, any of whose keywords occurs
as a substring of the lowercased text (first-match), and `unclear` when
no keyword of any category matches. -/
theorem check_keywords_first_match (text : Str) (language : String) :
    check_keywords text language =
      ((((lookupD resolution_keywords language
            (lookupD resolution_keywords "ru" [])).find?
          (fun sk => sk.2.any (fun k => isSub k (pyLower text)))).map
        Prod.fst).getD "unclear") := by
  unfold check_keywords
  exact firstMatch_eq_find _ _

/-- C3: the resolution score is base(status) + sentimentModifier clamped
to [0,100] with the stated bases and modifiers, and the `resolved` flag
returned by `detect_issue_resolution` is true exactly when the score is
strictly greater than 70. -/
theorem resolution_score_spec (status sentiment : String)
    (hs : status ∈ (["resolved", "partial", "unclear", "unresolved"] : List String))
    (hm : sentiment ∈ (["positive", "neutral", "negative"] : List String)) :
    calculate_resolution_score status sentiment =
      clampQ
        ((if status = "resolved" then 90 else if status = "partial" then 60
          else if status = "unclear" then 50 else 20) +
         (if sentiment = "positive" then 10 else if sentiment = "neutral" then 0
          else -10)) ∧
    ∀ conversation customer_text : Str, ∀ language : String,
      (detect_issue_resolution conversation customer_text language).resolved =
        decide ((detect_issue_resolution conversation customer_text
          language).resolution_score > 70) := by
  constructor
  · fin_cases hs <;> fin_cases hm <;>
      norm_num +decide [calculate_resolution_score, lookupD, base_scores,
        sentiment_modifiers, List.lookup, clampQ, pyMin, pyMax]
  · intro conversation customer_text language
    rfl

/-- C3 (witness): status `resolved` with a negative modifier scores 80;
and on a concrete call the `resolved` flag agrees with `score > 70`. -/
theorem resolution_score_spec_witness :
    calculate_resolution_score "resolved" "negative" = 80 ∧
    (detect_issue_resolution [] [] "ru").resolved =
      decide ((detect_issue_resolution [] [] "ru").resolution_score > 70) := by
  have h := resolution_score_spec "resolved" "negative" (by decide) (by decide)
  exact ⟨h.1.trans (by norm_num +decide [clampQ, pyMin, pyMax]), h.2 [] [] "ru"⟩

lemma firstMatch_mem (text_lower : Str) (l : List (String × List Str)) :
    firstMatch text_lower l = "unclear" ∨
      firstMatch text_lower l ∈ l.map Prod.fst := by
  induction l with
  | nil => exact Or.inl rfl
  | cons sk rest ih =>
    cases sk with
    | mk status keywords =>
      unfold firstMatch
      by_cases h : keywords.any (fun k => isSub k text_lower)
      · right
        simp [h]
      · rcases ih with h1 | h1
        · left
          simpa [h] using h1
        · right
          simp only [h, if_false, Bool.false_eq_true, List.map_cons, List.mem_cons]
          exact Or.inr h1

lemma resolution_table_cases (language : String) :
    lookupD resolution_keywords language (lookupD resolution_keywords "ru" []) =
      lookupD resolution_keywords "ru" [] ∨
    lookupD resolution_keywords language (lookupD resolution_keywords "ru" []) =
      lookupD resolution_keywords "kk" [] := by
  by_cases h1 : "ru" = language
  · left
    simp [lookupD, resolution_keywords, h1]
  · by_cases h2 : "kk" = language
    · right
      simp [lookupD, resolution_keywords, h1, h2]
    · left
      simp [lookupD, resolution_keywords, h1, h2]

lemma check_keywords_mem (text : Str) (language : String) :
    check_keywords text language ∈
      (["resolved", "unresolved", "partial", "unclear"] : List String) := by
  simp only [check_keywords]
  rcases resolution_table_cases language with h | h <;> rw [h]
  · rcases firstMatch_mem (pyLower text) (lookupD resolution_keywords "ru" []) with h1 | h1
    · rw [h1]; decide
    · have hm : List.map Prod.fst (lookupD resolution_keywords "ru" []) =
          ["resolved", "unresolved", "partial"] := by decide
      rw [hm] at h1
      simp only [List.mem_cons, List.not_mem_nil, or_false] at h1 ⊢
      tauto
  · rcases firstMatch_mem (pyLower text) (lookupD resolution_keywords "kk" []) with h1 | h1
    · rw [h1]; decide
    · have hm : List.map Prod.fst (lookupD resolution_keywords "kk" []) =
          ["resolved", "unresolved", "partial"] := by decide
      rw [hm] at h1
      simp only [List.mem_cons, List.not_mem_nil, or_false] at h1 ⊢
      tauto

/-- C6: `_analyze_final_sentiment` returns `"neutral"` for every input, so
the sentiment modifier is always 0 and the resolution score returned by
`detect_issue_resolution` always equals the base score of the classified
status exactly — one of 90, 60, 50, 20. -/
theorem final_sentiment_constant_neutral :
    (∀ sentences : List Str, analyze_final_sentiment sentences = "neutral") ∧
    (∀ conversation customer_text : Str, ∀ language : String,
      (detect_issue_resolution conversation customer_text language).resolution_score =
        lookupD base_scores
          (detect_issue_resolution conversation customer_text language).status 50 ∧
      (detect_issue_resolution conversation customer_text language).resolution_score
        ∈ ([90, 60, 50, 20] : List ℚ)) := by
  refine ⟨fun _ => rfl, fun conversation customer_text language => ?_⟩
  have hmem := check_keywords_mem customer_text language
  have hst : (detect_issue_resolution conversation customer_text language).status =
      check_keywords customer_text language := rfl
  have hsc : (detect_issue_resolution conversation customer_text language).resolution_score =
      calculate_resolution_score (check_keywords customer_text language) "neutral" := rfl
  rw [hsc, hst]
  simp only [List.mem_cons, List.not_mem_nil, or_false] at hmem
  rcases hmem with h | h | h | h <;> rw [h] <;>
    constructor <;>
      norm_num +decide [calculate_resolution_score, lookupD, base_scores,
        sentiment_modifiers, clampQ, pyMin, pyMax, List.mem_cons]

/-- The accumulator invariant: empty, or ending in the separator space
appended after every segment text. -/
def endsSpace (w : Str) : Prop := w = [] ∨ ∃ w0 : Str, w = w0 ++ [' ']

lemma endsSpace_nil : endsSpace [] := Or.inl rfl

lemma endsSpace_append (w t : Str) : endsSpace (w ++ t ++ [' ']) :=
  Or.inr ⟨w ++ t, rfl⟩

lemma wordsOf_append_of_endsSpace {w : Str} (hw : endsSpace w) (t : Str) :
    wordsOf (w ++ t) = wordsOf w ++ wordsOf t := by
  rcases hw with h | ⟨w0, h⟩
  · subst h
    simp [wordsOf_nil]
  · subst h
    rw [List.append_assoc, List.singleton_append,
      wordsOf_append_sep (by decide) w0 t, wordsOf_append_space (by decide) w0]

lemma wordsOf_acc {w : Str} (hw : endsSpace w) (t : Str) :
    wordsOf (w ++ t ++ [' ']) = wordsOf w ++ wordsOf t := by
  rw [wordsOf_append_space (by decide) (w ++ t), wordsOf_append_of_endsSpace hw]

/-- The word multiset of a list of segments. -/
def segWords (segments : List Segment) : Multiset Str :=
  (segments.map (fun s => (wordsOf s.text : Multiset Str))).sum

lemma sepLoop_words (rest : List Segment) :
    ∀ w c : Str, endsSpace w → endsSpace c →
      ((wordsOf (sepLoop rest w c).1 : Multiset Str) +
        (wordsOf (sepLoop rest w c).2 : Multiset Str)) =
      (wordsOf w : Multiset Str) + (wordsOf c : Multiset Str) + segWords rest := by
  induction rest with
  | nil =>
    intro w c hw hc
    simp [sepLoop, segWords]
  | cons seg rest ih =>
    intro w c hw hc
    have hsegw : segWords (seg :: rest) =
        (wordsOf seg.text : Multiset Str) + segWords rest := by
      simp [segWords]
    unfold sepLoop
    by_cases ht : pyStrip seg.text = []
    · rw [if_pos ht, ih w c hw hc, hsegw]
      have hseg : wordsOf seg.text = [] := by
        rw [← wordsOf_pyStrip seg.text, ht, wordsOf_nil]
      rw [hseg]
      simp
    · rw [if_neg ht]
      have hseg : wordsOf (pyStrip seg.text) = wordsOf seg.text :=
        wordsOf_pyStrip seg.text
      by_cases h1 : identify_speaker seg = "worker"
      · rw [if_pos h1, ih _ _ (endsSpace_append w _) hc, wordsOf_acc hw, hseg, hsegw]
        rw [← Multiset.coe_add]
        abel
      · rw [if_neg h1]
        by_cases h2 : identify_speaker seg = "customer"
        · rw [if_pos h2, ih _ _ hw (endsSpace_append c _), wordsOf_acc hc, hseg, hsegw]
          rw [← Multiset.coe_add]
          abel
        · rw [if_neg h2]
          by_cases h3 : likely_worker_text (pyStrip seg.text)
          · rw [if_pos h3, ih _ _ (endsSpace_append w _) hc, wordsOf_acc hw, hseg, hsegw]
            rw [← Multiset.coe_add]
            abel
          · rw [if_neg h3, ih _ _ hw (endsSpace_append c _), wordsOf_acc hc, hseg, hsegw]
            rw [← Multiset.coe_add]
            abel

/-- C5: speaker separation never drops or duplicates utterance text — the
two returned strings together contain, as a multiset of words, exactly
the words of the input segments; and the empty segment list yields two
empty strings. -/
theorem separate_speakers_preserves_words (segments : List Segment) :
    ((wordsOf (separate_speakers segments).1 : Multiset Str) +
      (wordsOf (separate_speakers segments).2 : Multiset Str) =
        segWords segments) ∧
    separate_speakers [] = ([], []) := by
  constructor
  · by_cases h : segments = []
    · subst h
      simp [separate_speakers, segWords, wordsOf_nil]
    · have hmain := sepLoop_words segments [] [] endsSpace_nil endsSpace_nil
      have hform : separate_speakers segments =
          (pyStrip (sepLoop segments [] []).1, pyStrip (sepLoop segments [] []).2) := by
        simp [separate_speakers, h]
      rw [hform]
      simpa [wordsOf_pyStrip, wordsOf_nil] using hmain
  · rfl

lemma countHits_append (tl : Str) (l1 l2 : List Str) :
    countHits tl (l1 ++ l2) = countHits tl l1 + countHits tl l2 := by
  unfold countHits
  rw [List.filter_append, List.length_append]

lemma tableHits_eq_flatten (tl : Str) (table : List (String × List Str)) :
    tableHits tl table = countHits tl ((table.map Prod.snd).flatten) := by
  induction table with
  | nil => rfl
  | cons lp rest ih =>
    simp only [tableHits, List.map_cons, List.sum_cons, List.flatten_cons,
      countHits_append]
    simp only [tableHits] at ih
    rw [ih]

/-- The communication score exactly as the claim words it: the clarity and
unclear lexicons routed to the call's language, Russian fallback. -/
def commScoreClaim (text : Str) (response_times : List ℚ) (interruptions : ℕ)
    (language : String) : ℚ :=
  clampQ (70 - (interruptions : ℚ) * 8 + commRtAdj response_times
    + pyMin 15 (3 * (countHits (pyLower text)
        (lookupD clarity_phrases language (lookupD clarity_phrases "ru" [])) : ℚ))
    - pyMin 20 (5 * (countHits (pyLower text)
        (lookupD unclear_phrases language (lookupD unclear_phrases "ru" [])) : ℚ)))

/-- C7 (counterexample): `_calculate_communication_score` takes no
language and scans the phrase tables of every language, so a Russian call
whose worker text contains only the Kazakh clarity phrase "анық" still
receives the clarity bonus, unlike the language-routed score of the
claim. -/
theorem communication_not_language_routed :
    calculate_communication_score (ls "анық") [] 0 ≠
      commScoreClaim (ls "анық") [] 0 "ru" := by
  have h1 : tableHits (pyLower (ls "анық")) clarity_phrases = 1 := by decide
  have h2 : tableHits (pyLower (ls "анық")) unclear_phrases = 0 := by decide
  have h3 : countHits (pyLower (ls "анық"))
      (lookupD clarity_phrases "ru" (lookupD clarity_phrases "ru" [])) = 0 := by decide
  have h4 : countHits (pyLower (ls "анық"))
      (lookupD unclear_phrases "ru" (lookupD unclear_phrases "ru" [])) = 0 := by decide
  simp only [calculate_communication_score, commScoreClaim, h1, h2, h3, h4]
  norm_num [commRtAdj, clampQ, pyMin, pyMax]

/-- The communication score written as a single formula over the union of
every language's clarity/unclear lexicon (the amended claim). -/
def commScoreAllLang (text : Str) (response_times : List ℚ)
    (interruptions : ℕ) : ℚ :=
  clampQ (70 - (interruptions : ℚ) * 8 + commRtAdj response_times
    + pyMin 15 (3 * (countHits (pyLower text)
        ((clarity_phrases.map Prod.snd).flatten) : ℚ))
    - pyMin 20 (5 * (countHits (pyLower text)
        ((unclear_phrases.map Prod.snd).flatten) : ℚ)))

/-- C7 (amended): the communication score starts at base 70, subtracts 8
per interruption, applies the response-time bands (mean>10 → −20, >5 →
−10, <2 → +10, no data → −5), adds a clarity bonus of 3 per hit capped at
15 and subtracts an unclear penalty of 5 per hit capped at 20 — but the
phrase lexicons are the union over all languages, not routed to the
call's language — and clamps to [0,100]. -/
theorem communication_score_formula (text : Str) (response_times : List ℚ)
    (interruptions : ℕ) :
    calculate_communication_score text response_times interruptions =
      commScoreAllLang text response_times interruptions := by
  simp only [calculate_communication_score, commScoreAllLang,
    tableHits_eq_flatten]

/-- C10: the +10 efficiency duration bonus applies on the inclusive band
[180, 480] — 180 and 480 receive it, 179.999 and 480.001 do not — while
durations over 600 receive −10 and under 60 receive −5. -/
theorem efficiency_duration_band :
    calculate_efficiency_score [] 0 ⟨some 180⟩ = 80 ∧
    calculate_efficiency_score [] 0 ⟨some 480⟩ = 80 ∧
    calculate_efficiency_score [] 0 ⟨some 179.999⟩ = 70 ∧
    calculate_efficiency_score [] 0 ⟨some 480.001⟩ = 70 ∧
    (∀ d : ℚ, 180 ≤ d → d ≤ 480 → durationAdj d = 10) ∧
    (∀ d : ℚ, d > 600 → durationAdj d = -10) ∧
    (∀ d : ℚ, d < 60 → durationAdj d = -5) := by
  refine ⟨?_, ?_, ?_, ?_, ?_, ?_, ?_⟩
  · norm_num [calculate_efficiency_score, effRtAdj, durationAdj, clampQ, pyMin, pyMax]
  · norm_num [calculate_efficiency_score, effRtAdj, durationAdj, clampQ, pyMin, pyMax]
  · norm_num [calculate_efficiency_score, effRtAdj, durationAdj, clampQ, pyMin, pyMax]
  · norm_num [calculate_efficiency_score, effRtAdj, durationAdj, clampQ, pyMin, pyMax]
  · intro d h1 h2
    unfold durationAdj
    rw [if_pos ⟨h1, h2⟩]
  · intro d h
    unfold durationAdj
    rw [if_neg ?hn, if_pos h]
    rintro ⟨h1, h2⟩
    linarith
  · intro d h
    unfold durationAdj
    rw [if_neg ?hn1, if_neg ?hn2, if_pos h]
    case hn1 => rintro ⟨h1, h2⟩; linarith
    case hn2 => linarith

/-- C10 (witness): the three universally quantified duration bands
evaluated at 300, 601 and 59 seconds. -/
theorem efficiency_duration_band_witness :
    durationAdj 300 = 10 ∧ durationAdj 601 = -10 ∧ durationAdj 59 = -5 :=
  ⟨efficiency_duration_band.2.2.2.2.1 300 (by norm_num) (by norm_num),
   efficiency_duration_band.2.2.2.2.2.1 601 (by norm_num),
   efficiency_duration_band.2.2.2.2.2.2 59 (by norm_num)⟩

/-- C8: the category weights are exactly
{emotion 0.25, resolution 0.25, communication 0.20, professionalism 0.15,
empathy 0.10, efficiency 0.05}, they sum to 1, and the weighted total —
also after the final rounding to one decimal — is monotonically
non-decreasing in the emotion score with everything else fixed. -/
theorem total_score_monotone_emotion :
    weights_emotion = 0.25 ∧ weights_resolution = 0.25 ∧
    weights_communication = 0.20 ∧ weights_professionalism = 0.15 ∧
    weights_empathy = 0.10 ∧ weights_efficiency = 0.05 ∧
    weights_emotion + weights_resolution + weights_communication +
      weights_professionalism + weights_empathy + weights_efficiency = 1 ∧
    (∀ e1 e2 r c p em ef : ℚ, e1 ≤ e2 →
      weightedTotal e1 r c p em ef ≤ weightedTotal e2 r c p em ef ∧
      roundTo1 (weightedTotal e1 r c p em ef) ≤
        roundTo1 (weightedTotal e2 r c p em ef)) := by
  refine ⟨rfl, rfl, rfl, rfl, rfl, rfl, ?_, ?_⟩
  · norm_num [weights_emotion, weights_resolution, weights_communication,
      weights_professionalism, weights_empathy, weights_efficiency]
  · intro e1 e2 r c p em ef h
    have hle : weightedTotal e1 r c p em ef ≤ weightedTotal e2 r c p em ef := by
      unfold weightedTotal weights_emotion weights_resolution
        weights_communication weights_professionalism weights_empathy
        weights_efficiency
      nlinarith [h]
    exact ⟨hle, roundTo1_mono hle⟩

/-- C8 (witness): the monotonicity statement applied at emotion scores 50
and 90 with the other five category scores fixed. -/
theorem total_score_monotone_emotion_witness :
    weightedTotal 50 80 70 60 60 70 ≤ weightedTotal 90 80 70 60 60 70 ∧
    roundTo1 (weightedTotal 50 80 70 60 60 70) ≤
      roundTo1 (weightedTotal 90 80 70 60 60 70) :=
  total_score_monotone_emotion.2.2.2.2.2.2.2 50 90 80 70 60 60 70 (by norm_num)

/-- C1 (counterexample): with the `emotions` key missing and every other
category input present, `calculate_total_score` raises a `KeyError`
(modelled as `none`) instead of defaulting the emotion category to its
base score. -/
theorem calculate_total_score_missing_emotions :
    calculate_total_score
      { emotions := none
        emotion_progression := some []
        resolution := some ⟨50, some false⟩
        worker_text := some []
        customer_text := some []
        response_times := some []
        interruptions := some 0
        greeting := some false
        closing := some false
        language := some "ru"
        transcription := some ⟨some 0⟩ } = none := rfl

/-- C1 (amended): `calculate_total_score` subscripts the eight category
inputs directly, so it raises when any of them is absent; whenever all
eight are present (whatever their values) it returns a result — only the
optional `language` and `transcription` keys and the inner dict fields
default. -/
theorem calculate_total_score_total_on_complete (ca : CallAnalysis)
    (h1 : ca.emotions.isSome = true)
    (h2 : ca.emotion_progression.isSome = true)
    (h3 : ca.resolution.isSome = true)
    (h4 : ca.worker_text.isSome = true)
    (h5 : ca.response_times.isSome = true)
    (h6 : ca.interruptions.isSome = true)
    (h7 : ca.greeting.isSome = true)
    (h8 : ca.closing.isSome = true) :
    (calculate_total_score ca).isSome = true := by
  obtain ⟨e1, he1⟩ := Option.isSome_iff_exists.mp h1
  obtain ⟨e2, he2⟩ := Option.isSome_iff_exists.mp h2
  obtain ⟨e3, he3⟩ := Option.isSome_iff_exists.mp h3
  obtain ⟨e4, he4⟩ := Option.isSome_iff_exists.mp h4
  obtain ⟨e5, he5⟩ := Option.isSome_iff_exists.mp h5
  obtain ⟨e6, he6⟩ := Option.isSome_iff_exists.mp h6
  obtain ⟨e7, he7⟩ := Option.isSome_iff_exists.mp h7
  obtain ⟨e8, he8⟩ := Option.isSome_iff_exists.mp h8
  simp [calculate_total_score, he1, he2, he3, he4, he5, he6, he7, he8]

/-- C1 (witness): a complete analysis input on which the engine produces
a result. -/
theorem calculate_total_score_total_on_complete_witness :
    (calculate_total_score
      { emotions := some ⟨some "positive", some 0.8⟩
        emotion_progression := some []
        resolution := some ⟨90, some true⟩
        worker_text := some []
        customer_text := some []
        response_times := some [1]
        interruptions := some 0
        greeting := some true
        closing := some true
        language := some "ru"
        transcription := some ⟨some 300⟩ }).isSome = true :=
  calculate_total_score_total_on_complete _ rfl rfl rfl rfl rfl rfl rfl rfl
